import Mathlib

/-!
Shallow embedding of `pydantic_property` (`src/pydantic_property/prop.py`)
for checking the repository specification.

The embedding models:
* `field_property` — the descriptor class (`prop.py` lines 15-142): its
  constructor (`__init__`), descriptor protocol methods (`__get__`,
  `__set__`, `__delete__`, `__set_name__`), default resolution
  (`get_default`, `get_type`), the synthesized slot-reading getter
  (`internal_getter`) and the chained builders (`getter`, `setter`,
  `deleter`).
* `PropertyModelMetaclass.__new__` — the registration pass over the class
  namespace (lines 147-161) and the registry/re-attach pass (lines 162-177).
* `PropertyModel.__setattr__` — the instance write protocol (lines 186-200).

Python values are modelled by the small inductive `Value`; exceptions by
`Except PErr`; Python dicts by association lists with dict update
semantics (replace in place or append).  Getter / setter / deleter
callables are modelled as functions over the instance private-slot store
(the backing storage the spec says they read and write).  Where a raised
Python exception leaves the object observable, operations return
`Except (PErr × Instance)` so that the state at raise time is explicit.
-/

namespace PydanticProperty

/-- A Python runtime value (as much as the claims need). -/
inductive Value where
  | vint (n : Int)
  | vstr (s : String)
  | vnone
  deriving DecidableEq, Repr

/-- A Python class object used as a type annotation / inferred type. -/
inductive Ty where
  | intT
  | strT
  | noneT
  deriving DecidableEq, Repr

/-- `type(v)` — the runtime class of a value (`default.__class__`). -/
def typeOf : Value → Ty
  | .vint _ => .intT
  | .vstr _ => .strT
  | .vnone => .noneT

/-- Calling a class with no arguments (`int()` is `0`, `str()` is `""`,
`NoneType()` is `None`). -/
def tyCall : Ty → Value
  | .intT => .vint 0
  | .strT => .vstr ""
  | .noneT => .vnone

/-- Python exceptions distinguished by the code under test. -/
inductive PErr where
  | attributeError (msg : String)
  | typeError (msg : String)
  | valueError (msg : String)
  deriving DecidableEq, Repr

/-- Python `s.startswith(p)`. -/
def pyStartsWith (s p : String) : Bool := p.toList.isPrefixOf s.toList

/-- Python `s[1:]`. -/
def pyDrop1 (s : String) : String := ⟨s.data.drop 1⟩

/-- Association list with Python-dict update semantics. -/
def StrMap (α : Type) : Type := List (String × α)

/-- Dict lookup: first entry with the key (keys are unique in a dict). -/
def lookupAssoc {α : Type} : StrMap α → String → Option α
  | [], _ => none
  | (k, v) :: rest, key => if k = key then some v else lookupAssoc rest key

/-- Dict store `d[k] = v`: replace in place if the key exists, else append
(this is Python dict ordering). -/
def updateAssoc {α : Type} : StrMap α → String → α → StrMap α
  | [], key, v => [(key, v)]
  | (k, w) :: rest, key, v =>
      if k = key then (key, v) :: rest else (k, w) :: updateAssoc rest key v

/-- The per-instance private-slot store (pydantic private attributes). -/
abbrev Priv := StrMap Value

/-- A zero-argument default factory as stored on the descriptor.  The
constructor (lines 64-67 of `prop.py`) may also store the getter signature
return annotation in this slot: `ann (some t)` is a class object used as a
factory, `ann none` is the `inspect.Signature.empty` sentinel (calling it
would raise `TypeError`). -/
inductive Factory where
  | fn (f : Unit → Value)
  | ann (t : Option Ty)

/-- The stored getter.  `internal` is the bound method
`self.internal_getter` (late-bound: it reads `self.private_name` and
`self.get_default()` at call time); `custom ra f` is a user function with
return annotation `ra` (`none` = no annotation). -/
inductive Fget where
  | internal
  | custom (ra : Option Ty) (f : Priv → Except PErr Value)

/-- Return annotation of the stored getter
(`inspect.signature(self.fget).return_annotation`; `none` models
`inspect.Signature.empty`).  `internal_getter` carries no annotation. -/
def Fget.returnAnn : Fget → Option Ty
  | .internal => none
  | .custom ra _ => ra

/-- The descriptor object from `prop.py` lines 15-142.  `default = none`
models the pydantic `Undefined` sentinel. -/
structure field_property where
  public_name : Option String
  private_name : Option String
  fget : Option Fget
  fset : Option (Priv → Value → Except PErr Priv)
  fdel : Option (Priv → Except PErr Priv)
  default : Option Value
  default_factory : Option Factory

/-- The `fget` argument to `field_property.__init__`: either a bare
private-slot name string or a function (with optional return annotation). -/
inductive FgetArg where
  | str (s : String)
  | fn (ra : Option Ty) (f : Priv → Except PErr Value)

/-- `field_property.__init__` (`prop.py` lines 27-85).  A string `fget`
becomes the private-slot name and the getter becomes `internal_getter`;
a missing `fget` also becomes `internal_getter`.  If the slot name starts
with exactly one underscore and no `public_name` was supplied, the public
name is the slot name without that underscore.  When both `default` and
`default_factory` are given, `default_factory` is replaced by the getter
return annotation, and `default` by Python `None` when that annotation is
absent (lines 64-67). -/
def field_property_init (fgetArg : Option FgetArg)
    (fsetArg : Option (Priv → Value → Except PErr Priv))
    (fdelArg : Option (Priv → Except PErr Priv))
    (default : Option Value)
    (public_name private_name : Option String)
    (default_factory : Option Factory) : field_property :=
  let pick :
      Fget × Option String × Option String :=
    match fgetArg with
    | some (.str s) =>
        let pub :=
          match public_name with
          | some p => some p
          | none =>
              if pyStartsWith s "_" && !pyStartsWith s "__" then
                some (pyDrop1 s)
              else none
        (Fget.internal, some s, pub)
    | some (.fn ra f) => (Fget.custom ra f, private_name, public_name)
    | none => (Fget.internal, private_name, public_name)
  let fget := pick.1
  let private_name := pick.2.1
  let public_name := pick.2.2
  let fixed : Option Value × Option Factory :=
    if default.isSome && default_factory.isSome then
      match fget.returnAnn with
      | none => (some Value.vnone, some (Factory.ann none))
      | some t => (default, some (Factory.ann (some t)))
    else (default, default_factory)
  { public_name := public_name
    private_name := private_name
    fget := some fget
    fset := fsetArg
    fdel := fdelArg
    default := fixed.1
    default_factory := fixed.2 }

namespace field_property

/-- `field_property.get_default` (lines 108-114): the `default` if set,
else the result of calling `default_factory` if set, else the `Undefined`
sentinel (`ok none`).  Calling the `Signature.empty` sentinel stored by
the constructor raises `TypeError`. -/
def get_default (fp : field_property) : Except PErr (Option Value) :=
  match fp.default with
  | some v => .ok (some v)
  | none =>
      match fp.default_factory with
      | some (.fn f) => .ok (some (f ()))
      | some (.ann (some t)) => .ok (some (tyCall t))
      | some (.ann none) => .error (.typeError "Signature.empty is not callable")
      | none => .ok none

/-- `field_property.get_type` (lines 116-120): the runtime class of the
resolved default, or the `Undefined` sentinel itself when none resolves. -/
def get_type (fp : field_property) : Except PErr (Option Ty) := do
  let d ← fp.get_default
  match d with
  | none => pure none
  | some v => pure (some (typeOf v))

/-- `getattr(instance, name)` restricted to the private-slot store, as
performed by `internal_getter`.  A missing slot raises `AttributeError`
(carrying the slot name); `getattr(instance, None)` raises `TypeError`,
which the `except AttributeError` clause does not catch. -/
def getattrSlot (priv : Priv) : Option String → Except PErr Value
  | none => .error (.typeError "attribute name must be string")
  | some p =>
      match lookupAssoc priv p with
      | some v => .ok v
      | none => .error (.attributeError p)

/-- `field_property.internal_getter` (lines 122-128).  NOTE: when the slot
is absent and a default resolves, the Python function falls off the end of
the `except` block and returns `None` — it does not return the resolved
default. -/
def internal_getter (fp : field_property) (priv : Priv) : Except PErr Value :=
  match getattrSlot priv fp.private_name with
  | .ok v => .ok v
  | .error (.attributeError msg) => do
      let d ← fp.get_default
      match d with
      | none => .error (.attributeError msg)
      | some _ => .ok Value.vnone
  | .error e => .error e

/-- Dispatch of the stored getter (a Python call `self.fget(obj)`). -/
def callFget (fp : field_property) (priv : Priv) : Fget → Except PErr Value
  | .internal => fp.internal_getter priv
  | .custom _ f => f priv

/-- `field_property.__get__` on an instance (lines 91-96): raises
`AttributeError` when `fget` is `None`, else calls the getter. -/
def dunder_get (fp : field_property) (priv : Priv) : Except PErr Value :=
  match fp.fget with
  | none => .error (.attributeError "unreadable attribute")
  | some g => fp.callFget priv g

/-- `field_property.__set__` (lines 98-101): raises `AttributeError` when
`fset` is `None`, else calls the setter. -/
def dunder_set (fp : field_property) (priv : Priv) (v : Value) :
    Except PErr Priv :=
  match fp.fset with
  | none => .error (.attributeError "cant set attribute")
  | some f => f priv v

/-- `field_property.__delete__` (lines 103-106): raises `AttributeError`
when `fdel` is `None`, else calls the deleter. -/
def dunder_delete (fp : field_property) (priv : Priv) : Except PErr Priv :=
  match fp.fdel with
  | none => .error (.attributeError "cant delete attribute")
  | some f => f priv

/-- `field_property.__set_name__` (lines 87-89): sets `public_name` to the
bound attribute name; the line touching `private_name` is commented out in
the source. -/
def set_name (fp : field_property) (_owner : String) (name : String) :
    field_property :=
  { fp with public_name := some name }

/-- The `getter` chained builder (lines 130-134): assigns `fget` as given
(no `None` check) and returns the descriptor. -/
def getter (fp : field_property) (g : Option Fget) : field_property :=
  { fp with fget := g }

/-- The `setter` chained builder (lines 136-138). -/
def setter (fp : field_property)
    (f : Option (Priv → Value → Except PErr Priv)) : field_property :=
  { fp with fset := f }

/-- The `deleter` chained builder (lines 140-142). -/
def deleter (fp : field_property) (f : Option (Priv → Except PErr Priv)) :
    field_property :=
  { fp with fdel := f }

end field_property

/-! ## The metaclass (`PropertyModelMetaclass.__new__`, lines 147-177) -/

/-- An entry of a class namespace (a Python class body dict value), as far
as the metaclass inspects it: a `field_property`, a pydantic
`PrivateAttr(default, default_factory)` declaration, or anything else. -/
inductive NsEntry where
  | prop (fp : field_property)
  | privAttr (default : Option Value) (default_factory : Option Factory)
  | plain (v : Value)

/-- An annotation value stored in `__annotations__`: `some t` is a class,
`none` is the `Undefined` sentinel that `get_type` can return. -/
abbrev AnnVal := Option Ty

/-- Python truthiness of `field.private_name` (`if field.private_name:`,
line 158): `None` and the empty string are falsy. -/
def truthyPrivateName (fp : field_property) : Option String :=
  match fp.private_name with
  | some s => if s = "" then none else some s
  | none => none

/-- `FieldInfo._validate` as called on line 153 (pydantic: raises
`ValueError` when both `default` and `default_factory` are set). -/
def validateFieldInfo (fp : field_property) : Except PErr Unit :=
  if fp.default.isSome && fp.default_factory.isSome then
    .error (.valueError "cannot specify both default and default_factory")
  else .ok ()

/-- The body of the registration loop for one `field_property` entry
(`prop.py` lines 151-160): validate the field info; if the name has no
annotation, store `field.get_type()` as its annotation (the `Undefined`
sentinel included); if `private_name` is truthy, store
`PrivateAttr(default=field.default, default_factory=field.default_factory)`
in the namespace under that name, unconditionally. -/
def registerField (ns : StrMap NsEntry) (ann : StrMap AnnVal)
    (varname : String) (fp : field_property) :
    Except PErr (StrMap NsEntry × StrMap AnnVal) := do
  validateFieldInfo fp
  let ann ←
    if (lookupAssoc ann varname).isSome then pure ann
    else do
      let t ← fp.get_type
      pure (updateAssoc ann varname t)
  let ns :=
    match truthyPrivateName fp with
    | some p => updateAssoc ns p (NsEntry.privAttr fp.default fp.default_factory)
    | none => ns
  pure (ns, ann)

/-- The registration loop (`for varname, field in list(namespace.items())`,
line 150): iterates over a snapshot of the namespace while mutating the
namespace and annotation dicts. -/
def registerLoop : List (String × NsEntry) → StrMap NsEntry →
    StrMap AnnVal → Except PErr (StrMap NsEntry × StrMap AnnVal)
  | [], ns, ann => .ok (ns, ann)
  | (vn, e) :: rest, ns, ann =>
      match e with
      | .prop fp =>
          match registerField ns ann vn fp with
          | .error err => .error err
          | .ok (ns2, ann2) => registerLoop rest ns2 ann2
      | _ => registerLoop rest ns ann

/-- The whole registration pass of `PropertyModelMetaclass.__new__` before
delegation (lines 149-160), on a namespace and its `__annotations__`. -/
def registerPass (ns : List (String × NsEntry)) (ann : StrMap AnnVal) :
    Except PErr (StrMap NsEntry × StrMap AnnVal) :=
  registerLoop ns ns ann

/-- A constructed model class, as the instance-level code sees it:
`mroAttrs` are the attribute dicts along the method resolution order
(the class's own re-attached descriptors first), `field_properties` is
the `__field_properties__` registry list, `fieldNames` the pydantic
`__fields__` keys and `privateNames` the pydantic private-attribute
(slot) names. -/
structure ModelClass where
  mroAttrs : List (StrMap NsEntry)
  field_properties : List String
  fieldNames : List String
  privateNames : List String

/-- `getattr(cls, name, None)`: first hit along the method resolution
order's attribute dicts. -/
def resolveClassAttr (cls : ModelClass) (name : String) : Option NsEntry :=
  go cls.mroAttrs
where
  go : List (StrMap NsEntry) → Option NsEntry
    | [] => none
    | d :: rest =>
        match lookupAssoc d name with
        | some e => some e
        | none => go rest

/-- The names appended to the registry by the second metaclass loop
(lines 169-173): the namespace entries that are `field_property`s, in
declaration order. -/
def ownPropNames (ns : List (String × NsEntry)) : List String :=
  ns.filterMap fun q => match q.2 with | .prop _ => some q.1 | _ => none

/-- The descriptors re-attached onto the new class by `setattr(new_cls,
varname, field)` (line 172): the class's own attribute dict. -/
def ownPropAttrs (ns : List (String × NsEntry)) : StrMap NsEntry :=
  ns.filterMap fun q =>
    match q.2 with | .prop f => some (q.1, NsEntry.prop f) | _ => none

/-- `__field_properties__` of the new class (lines 166-175): start from an
empty list, extend with each base's registry in base order, then append
this class's own descriptor names in declaration order. -/
def buildFieldProperties (bases : List ModelClass)
    (ns : List (String × NsEntry)) : List String :=
  let inherited := bases.foldl (fun acc b => acc ++ b.field_properties) []
  ns.foldl
    (fun acc q => match q.2 with | .prop _ => acc ++ [q.1] | _ => acc)
    inherited

/-- The new class assembled after delegation (lines 162-177).  The
delegate call to pydantic's own `ModelMetaclass.__new__` is the external
Model System; its contributions (`fieldNames`, `privateNames`) are taken
as inputs.  The new class's own attribute dict holds exactly the
re-attached descriptors, ahead of the bases' attribute dicts. -/
def mkNewClass (bases : List ModelClass) (ns : List (String × NsEntry))
    (fieldNames privateNames : List String) : ModelClass :=
  { mroAttrs := ownPropAttrs ns :: (bases.map ModelClass.mroAttrs).flatten
    field_properties := buildFieldProperties bases ns
    fieldNames := fieldNames
    privateNames := privateNames }

/-! ## The instance write protocol (`PropertyModel.__setattr__`, 186-200) -/

/-- A model instance: `dict` is `self.__dict__`, the materialized map
pydantic serializes from; `priv` is the private-slot backing storage. -/
structure Instance where
  dict : StrMap Value
  priv : Priv

/-- Modelled from the spec: the Model System's standard attribute-write
entry point (spec section 6; `super().__setattr__` on line 188).  pydantic
`BaseModel.__setattr__` is not part of this repository: per the spec's
data model, a write to a private-slot name updates the backing storage, a
write to a declared field validates (coercion is out of scope, modelled as
identity) and updates the materialized map under that key, and any other
name is rejected. -/
def BaseModel_setattr (cls : ModelClass) (inst : Instance) (name : String)
    (v : Value) : Except (PErr × Instance) Instance :=
  if name ∈ cls.privateNames then
    .ok { inst with priv := updateAssoc inst.priv name v }
  else if name ∈ cls.fieldNames then
    .ok { inst with dict := updateAssoc inst.dict name v }
  else .error (.valueError "object has no field", inst)

/-- `object.__getattribute__(self, name)` (bound as `object_getattr` on
line 181): a data descriptor on the class wins, then private slots, then
the instance `__dict__`; a miss raises `AttributeError`. -/
def object_getattr (cls : ModelClass) (inst : Instance) (name : String) :
    Except PErr Value :=
  match resolveClassAttr cls name with
  | some (.prop fp) => fp.dunder_get inst.priv
  | _ =>
      if name ∈ cls.privateNames then
        match lookupAssoc inst.priv name with
        | some v => .ok v
        | none => .error (.attributeError name)
      else
        match lookupAssoc inst.dict name with
        | some v => .ok v
        | none => .error (.attributeError name)

/-- The reads of the refresh dict comprehension on lines 199-200: every
registered name is read through `object_getattr`, left to right; the
first failure aborts the whole comprehension before any map update. -/
def readAllProps (cls : ModelClass) (inst : Instance) :
    List String → Except PErr (List (String × Value))
  | [] => .ok []
  | n :: rest => do
      let v ← object_getattr cls inst n
      let kvs ← readAllProps cls inst rest
      pure ((n, v) :: kvs)

/-- `self.__dict__.update(kvs)` (line 199). -/
def updateAll (d : StrMap Value) (kvs : List (String × Value)) :
    StrMap Value :=
  kvs.foldl (fun d q => updateAssoc d q.1 q.2) d

/-- `PropertyModel.__setattr__` (lines 186-200).  Step 1: the Model
System's standard write.  Step 2: if the written name is in the
materialized map and the class attribute is a `field_property`, call the
descriptor's own `__set__` (`object_setattr` dispatches to the data
descriptor).  Step 3: rebuild the map entries for every registered name
from `object_getattr` and apply them as one `dict.update`.  A raise at
any step propagates and leaves the instance as it was at that point. -/
def PropertyModel_setattr (cls : ModelClass) (inst : Instance)
    (name : String) (v : Value) : Except (PErr × Instance) Instance := do
  let inst1 ← BaseModel_setattr cls inst name v
  match resolveClassAttr cls name with
  | some (.prop fp) =>
      if (lookupAssoc inst1.dict name).isSome then
        match fp.dunder_set inst1.priv v with
        | .error e => .error (e, inst1)
        | .ok priv2 =>
            let inst2 : Instance := { inst1 with priv := priv2 }
            match readAllProps cls inst2 cls.field_properties with
            | .error e => .error (e, inst2)
            | .ok kvs => .ok { inst2 with dict := updateAll inst2.dict kvs }
      else .ok inst1
  | _ => .ok inst1

/-- `del instance.name` (`object.__delattr__`): a data descriptor's
`__delete__` is called (raising before any mutation when there is no
deleter); otherwise the name is removed from the instance dict if
present. -/
def object_delattr (cls : ModelClass) (inst : Instance) (name : String) :
    Except (PErr × Instance) Instance :=
  match resolveClassAttr cls name with
  | some (.prop fp) =>
      match fp.dunder_delete inst.priv with
      | .error e => .error (e, inst)
      | .ok priv2 => .ok { inst with priv := priv2 }
  | _ =>
      match lookupAssoc inst.dict name with
      | some _ =>
          .ok { inst with
                  dict := inst.dict.filter (fun q => !(q.1 = name : Bool)) }
      | none => .error (.attributeError name, inst)

/-! ## Concrete classes and instances used by counterexamples and
witnesses -/

/-- Reads the `default` argument of a synthesized `PrivateAttr` namespace
entry, if the key holds one. -/
def privDefaultAt (ns : StrMap NsEntry) (k : String) : Option (Option Value) :=
  match lookupAssoc ns k with
  | some (.privAttr d _) => some d
  | _ => none

/-- `field_property('_x', default=5)`. -/
def fpDefaulted : field_property :=
  field_property_init (some (.str "_x")) none none (some (.vint 5)) none none none

/-- `field_property('_x')` — no default, no factory. -/
def fpNoDefault : field_property :=
  field_property_init (some (.str "_x")) none none none none none none

/-- `field_property('_x', default=0)` — descriptor of the stale-map
counterexample: field `x` backed by slot `_x`, no setter needed. -/
def fpA : field_property :=
  field_property_init (some (.str "_x")) none none (some (.vint 0)) none none none

/-- The class owning `fpA`: one registered field `x`, private slot `_x`. -/
def clsA : ModelClass :=
  { mroAttrs := [[("x", .prop fpA)]], field_properties := ["x"],
    fieldNames := ["x"], privateNames := ["_x"] }

/-- An instance of `clsA` whose map is in sync (`x = _x = 0`). -/
def instA : Instance := { dict := [("x", .vint 0)], priv := [("_x", .vint 0)] }

/-- `field_property('_x', default=0)` with the identity setter
`self._x = value` attached via the `setter` builder. -/
def fpW : field_property :=
  (field_property_init (some (.str "_x")) none none (some (.vint 0)) none none
      none).setter
    (some fun priv v => .ok (updateAssoc priv "_x" v))

/-- The class owning `fpW`. -/
def clsW : ModelClass :=
  { mroAttrs := [[("x", .prop fpW)]], field_properties := ["x"],
    fieldNames := ["x"], privateNames := ["_x"] }

/-- An in-sync instance of `clsW`. -/
def instW : Instance := { dict := [("x", .vint 0)], priv := [("_x", .vint 0)] }

/-- The state of `instW` after `instW.x = 7`. -/
def instWF : Instance := { dict := [("x", .vint 7)], priv := [("_x", .vint 7)] }

/-- A class body declaring field `x = field_property('_x', default=5)`
together with an explicit `_x = PrivateAttr(default=1)`. -/
def nsOverwrite : List (String × NsEntry) :=
  [("x", .prop fpDefaulted), ("_x", .privAttr (some (.vint 1)) none)]

/-- `field_property()` — no getter argument, no default, no factory (the
shape of the test module's field `z`, but with no default at all). -/
def fpUnset : field_property :=
  field_property_init none none none none none none none

/-- A descriptor whose custom getter always raises `ValueError`. -/
def fpBoom : field_property :=
  field_property_init
    (some (.fn none fun _ => .error (.valueError "boom"))) none none none
    none none none

/-- A class with a writable field `x` and a second registered field `w`
whose getter always raises: the refresh pass over `["x", "w"]` fails at
`w`. -/
def clsV : ModelClass :=
  { mroAttrs := [[("x", .prop fpW), ("w", .prop fpBoom)]],
    field_properties := ["x", "w"],
    fieldNames := ["x", "w"], privateNames := ["_x"] }

/-- An instance of `clsV`. -/
def instV : Instance :=
  { dict := [("x", .vint 0), ("w", .vnone)], priv := [("_x", .vint 0)] }

/-- `field_property('_d', default=0)` — no setter, no deleter. -/
def fpD : field_property :=
  field_property_init (some (.str "_d")) none none (some (.vint 0)) none none none

/-- The class owning `fpD` under the field name `d`. -/
def clsD : ModelClass :=
  { mroAttrs := [[("d", .prop fpD)]], field_properties := ["d"],
    fieldNames := ["d"], privateNames := ["_d"] }

/-- An in-sync instance of `clsD`. -/
def instD : Instance := { dict := [("d", .vint 0)], priv := [("_d", .vint 0)] }

/-- A parent-class descriptor for the inheritance example. -/
def fpParent : field_property :=
  field_property_init (some (.str "_x")) none none (some (.vint 1)) none none none

/-- A subclass descriptor overriding the same field name `x`. -/
def fpChild : field_property :=
  field_property_init (some (.str "_x")) none none (some (.vint 2)) none none none

/-- A parent class with registry `["x"]`. -/
def clsParent : ModelClass :=
  { mroAttrs := [[("x", .prop fpParent)]], field_properties := ["x"],
    fieldNames := ["x"], privateNames := ["_x"] }

/-- The subclass body redeclaring `x`. -/
def nsChild : List (String × NsEntry) := [("x", .prop fpChild)]

/-! ## Association-list lemmas -/

theorem lookupAssoc_updateAssoc_self {α : Type} (d : StrMap α) (k : String)
    (v : α) : lookupAssoc (updateAssoc d k v) k = some v := by
  induction d with
  | nil => simp [updateAssoc, lookupAssoc]
  | cons q rest ih =>
      by_cases h : q.1 = k
      · simp [updateAssoc, lookupAssoc, h]
      · simp [updateAssoc, lookupAssoc, h, ih]

theorem lookupAssoc_updateAssoc_ne {α : Type} (d : StrMap α)
    (k key : String) (v : α) (h : key ≠ k) :
    lookupAssoc (updateAssoc d k v) key = lookupAssoc d key := by
  induction d with
  | nil => simp [updateAssoc, lookupAssoc, Ne.symm h]
  | cons q rest ih =>
      by_cases hq : q.1 = k
      · simp [updateAssoc, lookupAssoc, hq, h, Ne.symm h]
      · simp only [updateAssoc, hq, if_false, lookupAssoc]
        by_cases hk : q.1 = key
        · simp [hk]
        · simp [hk, ih]

theorem updateAll_lookup_not_mem (kvs : List (String × Value))
    (d : StrMap Value) (n : String) (h : ∀ q ∈ kvs, q.1 ≠ n) :
    lookupAssoc (updateAll d kvs) n = lookupAssoc d n := by
  induction kvs generalizing d with
  | nil => rfl
  | cons q rest ih =>
      have hq : q.1 ≠ n := h q (List.mem_cons_self _ _)
      have hrest : ∀ p ∈ rest, p.1 ≠ n := fun p hp =>
        h p (List.mem_cons_of_mem _ hp)
      calc lookupAssoc (updateAll (updateAssoc d q.1 q.2) rest) n
          = lookupAssoc (updateAssoc d q.1 q.2) n := ih _ hrest
        _ = lookupAssoc d n := lookupAssoc_updateAssoc_ne _ _ _ _ (Ne.symm hq)

theorem updateAll_lookup_mem (kvs : List (String × Value))
    (d : StrMap Value) (n : String) (w : Value)
    (hcons : ∀ q ∈ kvs, q.1 = n → q.2 = w)
    (hmem : ∃ q ∈ kvs, q.1 = n) :
    lookupAssoc (updateAll d kvs) n = some w := by
  induction kvs generalizing d with
  | nil => exact absurd hmem (by simp)
  | cons q rest ih =>
      have hconsR : ∀ p ∈ rest, p.1 = n → p.2 = w := fun p hp =>
        hcons p (List.mem_cons_of_mem _ hp)
      by_cases hrest : ∃ p ∈ rest, p.1 = n
      · exact ih _ hconsR hrest
      · rcases hmem with ⟨p, hp, hpn⟩
        rcases List.mem_cons.mp hp with hpq | hpR
        · subst hpq
          have hv : p.2 = w := hcons p (List.mem_cons_self _ _) hpn
          have hnone : ∀ r ∈ rest, r.1 ≠ n := by
            intro r hr hrn
            exact hrest ⟨r, hr, hrn⟩
          calc lookupAssoc (updateAll (updateAssoc d p.1 p.2) rest) n
              = lookupAssoc (updateAssoc d p.1 p.2) n :=
                updateAll_lookup_not_mem _ _ _ hnone
            _ = some w := by rw [hpn, hv]; exact lookupAssoc_updateAssoc_self _ _ _
        · exact absurd ⟨p, hpR, hpn⟩ hrest

theorem readAllProps_ok_spec (cls : ModelClass) (inst : Instance) :
    ∀ (l : List String) (kvs : List (String × Value)),
      readAllProps cls inst l = .ok kvs →
      kvs.map Prod.fst = l ∧
        ∀ q ∈ kvs, object_getattr cls inst q.1 = .ok q.2
  | [], kvs, h => by
      simp only [readAllProps] at h
      cases h
      exact ⟨rfl, by simp⟩
  | n :: rest, kvs, h => by
      simp only [readAllProps, bind, Except.bind] at h
      cases hg : object_getattr cls inst n with
      | error e => rw [hg] at h; cases h
      | ok v =>
          rw [hg] at h
          cases hr : readAllProps cls inst rest with
          | error e => rw [hr] at h; cases h
          | ok kvs2 =>
              rw [hr] at h
              simp only [pure, Except.pure] at h
              cases h
              obtain ⟨hkeys, hvals⟩ := readAllProps_ok_spec cls inst rest kvs2 hr
              refine ⟨by simp [hkeys], ?_⟩
              intro q hq
              rcases List.mem_cons.mp hq with hq1 | hq2
              · subst hq1; exact hg
              · exact hvals q hq2

/-! ## Claim theorems -/

/-- Claim C2 (code bug): for `field_property('_x', default=5)`, reading an
instance whose `_x` slot is absent does NOT return the resolved default 5
— `internal_getter` computes the default, sees it is resolvable, and then
falls off the end of the function, returning Python `None`.  The second
half of the claim does hold: with no resolvable default the underlying
`AttributeError` for the missing slot is re-raised. -/
theorem internal_getter_returns_none_not_default :
    fpDefaulted.dunder_get [] = .ok Value.vnone
    ∧ (Except.ok Value.vnone : Except PErr Value) ≠ .ok (Value.vint 5)
    ∧ fpNoDefault.dunder_get [] = .error (.attributeError "_x") :=
  ⟨rfl, by simp, rfl⟩

/-- Claim C6: a `field_property` built from a bare private-slot name that
starts with exactly one underscore (and not two) gets `public_name` equal
to the slot name with the underscore stripped when no `public_name` is
supplied, and keeps an explicitly supplied `public_name`. -/
theorem public_name_from_private_slot_shorthand (s : String)
    (fs : Option (Priv → Value → Except PErr Priv))
    (fd : Option (Priv → Except PErr Priv)) (d : Option Value)
    (pn : Option String) (df : Option Factory)
    (h1 : pyStartsWith s "_" = true) (h2 : pyStartsWith s "__" = false) :
    (field_property_init (some (.str s)) fs fd d none pn df).public_name
      = some (pyDrop1 s)
    ∧ ∀ pb : String,
        (field_property_init (some (.str s)) fs fd d (some pb) pn
            df).public_name = some pb := by
  constructor
  · simp [field_property_init, h1, h2]
  · intro pb
    simp [field_property_init]

/-- Witness for C6 at `s = "_abc"`: the hypotheses hold and the public
name is `"abc"`, while an explicit `"pub"` is kept. -/
theorem public_name_from_private_slot_shorthand_witness :
    (field_property_init (some (.str "_abc")) none none none none none
        none).public_name = some "abc"
    ∧ (field_property_init (some (.str "_abc")) none none none (some "pub")
        none none).public_name = some "pub" := by
  have h := public_name_from_private_slot_shorthand "_abc" none none none
    none none (by decide) (by decide)
  exact ⟨h.1, h.2 "pub"⟩

/-- Claim C9: `__set_name__` sets `public_name` to the bound attribute
name and changes nothing else on the descriptor; in particular
`private_name` is untouched. -/
theorem set_name_sets_public_name_only (fp : field_property)
    (owner name : String) :
    (fp.set_name owner name).public_name = some name
    ∧ (fp.set_name owner name).private_name = fp.private_name
    ∧ (fp.set_name owner name).fget = fp.fget
    ∧ (fp.set_name owner name).fset = fp.fset
    ∧ (fp.set_name owner name).fdel = fp.fdel
    ∧ (fp.set_name owner name).default = fp.default
    ∧ (fp.set_name owner name).default_factory = fp.default_factory :=
  ⟨rfl, rfl, rfl, rfl, rfl, rfl, rfl⟩

/-- Claim C10: the constructor always stores a getter — a string argument
and a missing argument are both replaced by the synthesized
`internal_getter`, so `fget` is never `None` on a freshly constructed
descriptor and the `unreadable attribute` branch of `__get__` requires a
null getter attached later through the `getter` builder. -/
theorem constructed_fget_always_present :
    (∀ (g : Option FgetArg) (fs : Option (Priv → Value → Except PErr Priv))
        (fd : Option (Priv → Except PErr Priv)) (d : Option Value)
        (pb pn : Option String) (df : Option Factory),
        ((field_property_init g fs fd d pb pn df).fget).isSome = true)
    ∧ ∀ (fp : field_property) (priv : Priv),
        (fp.getter none).dunder_get priv
          = .error (.attributeError "unreadable attribute") := by
  constructor
  · intro g fs fd d pb pn df
    cases g with
    | none => rfl
    | some a => cases a <;> rfl
  · intro fp priv
    rfl

/-- Counterexample to claim C3: the class body `nsOverwrite` explicitly
declares `_x = PrivateAttr(default=1)`, yet after the registration pass
the namespace maps `_x` to the synthesized `PrivateAttr(default=5)` taken
from the descriptor — the explicit declaration is overwritten, not
preserved. -/
theorem register_overwrites_explicit_private_slot :
    (registerPass nsOverwrite [("x", some Ty.intT)]).map
        (fun p => privDefaultAt p.1 "_x")
      = .ok (some (some (Value.vint 5)))
    ∧ some (Value.vint 5) ≠ some (Value.vint 1) :=
  ⟨rfl, by simp⟩

/-- Claim C3 as amended: whenever a namespace `field_property` has a
truthy `private_name`, the registration step for that field binds the
private-slot name to a `PrivateAttr` synthesized from the descriptor's
`default`/`default_factory`, unconditionally — any entry already present
under that name is replaced. -/
theorem registerField_always_synthesizes_private_slot
    (ns : StrMap NsEntry) (ann : StrMap AnnVal) (vn : String)
    (fp : field_property) (p : String)
    (h1 : validateFieldInfo fp = .ok ())
    (h2 : truthyPrivateName fp = some p)
    (h3 : (lookupAssoc ann vn).isSome = true) :
    registerField ns ann vn fp
      = .ok (updateAssoc ns p (NsEntry.privAttr fp.default fp.default_factory),
             ann)
    ∧ lookupAssoc
        (updateAssoc ns p (NsEntry.privAttr fp.default fp.default_factory)) p
      = some (NsEntry.privAttr fp.default fp.default_factory) := by
  refine ⟨?_, lookupAssoc_updateAssoc_self _ _ _⟩
  simp [registerField, h1, h2, h3, bind, Except.bind, pure, Except.pure]

/-- Witness for C3's amended theorem on `fpDefaulted` registered under
`x` over a namespace that already declares `_x`. -/
theorem registerField_always_synthesizes_private_slot_witness :
    registerField nsOverwrite [("x", some Ty.intT)] "x" fpDefaulted
      = .ok (updateAssoc nsOverwrite "_x"
               (NsEntry.privAttr fpDefaulted.default
                  fpDefaulted.default_factory),
             [("x", some Ty.intT)]) :=
  (registerField_always_synthesizes_private_slot nsOverwrite
    [("x", some Ty.intT)] "x" fpDefaulted "_x" rfl rfl rfl).1

/-- Counterexample to claim C4: for a class body whose only entry is a
`field_property` with no default, no factory and no annotation (so
`get_type` yields the `Undefined` sentinel), the registration pass does
NOT abort: it returns successfully and stores the `Undefined` sentinel
itself (`none`) as the synthesized annotation for the field. -/
theorem register_accepts_unset_type_without_error :
    (registerPass [("z", .prop fpUnset)] []).map
        (fun p => (p.2, (lookupAssoc p.1 "z").isSome))
      = .ok ([("z", (none : AnnVal))], true) :=
  rfl

/-- Claim C4 as amended: when a `field_property` has no explicit
annotation and its type inference yields the `Unset` sentinel, the
registration step raises no error — it stores the sentinel itself as the
field's annotation and proceeds (any definition-time failure is left to
the Model System's class builder, outside this repository). -/
theorem register_unset_type_stores_sentinel (ns : StrMap NsEntry)
    (ann : StrMap AnnVal) (vn : String) (fp : field_property)
    (h1 : validateFieldInfo fp = .ok ())
    (h2 : lookupAssoc ann vn = none)
    (h3 : field_property.get_type fp = .ok none)
    (h4 : truthyPrivateName fp = none) :
    registerField ns ann vn fp = .ok (ns, updateAssoc ann vn none) := by
  simp [registerField, h1, h2, h3, h4, bind, Except.bind, pure, Except.pure]

/-- Witness for C4's amended theorem on `fpUnset`. -/
theorem register_unset_type_stores_sentinel_witness :
    registerField [] [] "z" fpUnset = .ok ([], updateAssoc [] "z" none) :=
  register_unset_type_stores_sentinel [] [] "z" fpUnset rfl rfl rfl rfl

/-- Claim C7: deleting a registered descriptor field with no deleter
raises the documented error with the instance state untouched at raise
time (the materialized map is exactly as before), and a descriptor write
with no setter raises the documented not-writable error. -/
theorem delete_without_deleter_raises_and_preserves_map
    (cls : ModelClass) (inst : Instance) (name : String)
    (fp fp2 : field_property) (priv : Priv) (v : Value)
    (h1 : resolveClassAttr cls name = some (NsEntry.prop fp))
    (h2 : fp.fdel = none)
    (h3 : fp2.fset = none) :
    object_delattr cls inst name
      = .error (.attributeError "cant delete attribute", inst)
    ∧ fp2.dunder_set priv v = .error (.attributeError "cant set attribute") := by
  constructor
  · simp [object_delattr, h1, field_property.dunder_delete, h2]
  · simp [field_property.dunder_set, h3]

/-- Witness for C7 on the concrete class `clsD` whose field `d` has
neither deleter nor setter. -/
theorem delete_without_deleter_raises_and_preserves_map_witness :
    object_delattr clsD instD "d"
      = .error (.attributeError "cant delete attribute", instD)
    ∧ fpD.dunder_set [] Value.vnone
      = .error (.attributeError "cant set attribute") :=
  delete_without_deleter_raises_and_preserves_map clsD instD "d" fpD fpD []
    Value.vnone rfl rfl rfl

/-! ## Registry lemmas for C8 -/

theorem foldl_extend_bases (bases : List ModelClass)
    (init : List String) :
    bases.foldl (fun acc b => acc ++ b.field_properties) init
      = init ++ (bases.map ModelClass.field_properties).flatten := by
  induction bases generalizing init with
  | nil => simp
  | cons b rest ih => simp [ih, List.append_assoc]

theorem foldl_own_names (ns : List (String × NsEntry))
    (init : List String) :
    ns.foldl
        (fun acc q => match q.2 with | .prop _ => acc ++ [q.1] | _ => acc)
        init
      = init ++ ownPropNames ns := by
  induction ns generalizing init with
  | nil => simp [ownPropNames]
  | cons q rest ih =>
      cases hq : q.2 with
      | prop fp =>
          simp [List.foldl_cons, hq, ih, ownPropNames, List.filterMap_cons,
            List.append_assoc]
      | privAttr d df =>
          simp [List.foldl_cons, hq, ih, ownPropNames, List.filterMap_cons]
      | plain v =>
          simp [List.foldl_cons, hq, ih, ownPropNames, List.filterMap_cons]

/-- Claim C8: the new class's registry is the concatenation of the base
registries in base order followed by the class's own descriptor names in
declaration order, and a name the subclass re-declares resolves (through
class attribute lookup) to the subclass's descriptor, never a parent's.
Parent registries are values the construction only reads; it builds a
fresh list, so no parent registry is mutated. -/
theorem registry_concatenation_and_most_derived_resolution
    (bases : List ModelClass) (ns : List (String × NsEntry))
    (fns pns : List String) (name : String) (fp : field_property)
    (hown : lookupAssoc (ownPropAttrs ns) name = some (NsEntry.prop fp)) :
    buildFieldProperties bases ns
      = (bases.map ModelClass.field_properties).flatten ++ ownPropNames ns
    ∧ resolveClassAttr (mkNewClass bases ns fns pns) name
      = some (NsEntry.prop fp) := by
  constructor
  · unfold buildFieldProperties
    rw [foldl_extend_bases, foldl_own_names]
    simp
  · simp [resolveClassAttr, mkNewClass, resolveClassAttr.go, hown]

/-- Witness for C8: a parent with field `x` and a subclass re-declaring
`x`; the subclass registry is the parent's entry followed by its own, and
`x` resolves to the subclass's descriptor. -/
theorem registry_concatenation_and_most_derived_resolution_witness :
    buildFieldProperties [clsParent] nsChild
      = ([clsParent].map ModelClass.field_properties).flatten
          ++ ownPropNames nsChild
    ∧ resolveClassAttr (mkNewClass [clsParent] nsChild ["x"] ["_x"]) "x"
      = some (NsEntry.prop fpChild) :=
  registry_concatenation_and_most_derived_resolution [clsParent] nsChild
    ["x"] ["_x"] "x" fpChild rfl

/-- Claim C5: when the refresh pass of a write fails, the whole write
propagates exactly that error, and the materialized map at raise time is
exactly the map produced by the standard write path — the refresh wrote
nothing (its dict comprehension is fully evaluated before `dict.update`
runs), so the update is all-or-nothing. -/
theorem refresh_failure_aborts_write_atomically
    (cls : ModelClass) (inst inst1 : Instance) (name : String) (v : Value)
    (fp : field_property) (f : Priv → Value → Except PErr Priv)
    (p2 : Priv) (e : PErr)
    (h1 : BaseModel_setattr cls inst name v = .ok inst1)
    (h2 : resolveClassAttr cls name = some (NsEntry.prop fp))
    (h3 : (lookupAssoc inst1.dict name).isSome = true)
    (h4 : fp.fset = some f)
    (h5 : f inst1.priv v = .ok p2)
    (h6 : readAllProps cls { inst1 with priv := p2 } cls.field_properties
            = .error e) :
    PropertyModel_setattr cls inst name v
      = .error (e, { inst1 with priv := p2 })
    ∧ ({ inst1 with priv := p2 } : Instance).dict = inst1.dict := by
  refine ⟨?_, rfl⟩
  simp [PropertyModel_setattr, bind, Except.bind, h1, h2, h3,
    field_property.dunder_set, h4, h5, h6]

/-- Witness for C5: on `clsV`, writing `x = 3` triggers the refresh over
`["x", "w"]`; `w`'s getter raises, the write aborts with that error, and
the map at raise time is the standard-path map (no refresh entry was
applied). -/
theorem refresh_failure_aborts_write_atomically_witness :
    PropertyModel_setattr clsV instV "x" (Value.vint 3)
      = .error (.valueError "boom",
          { dict := [("x", Value.vint 3), ("w", Value.vnone)],
            priv := [("_x", Value.vint 3)] })
    ∧ ({ dict := [("x", Value.vint 3), ("w", Value.vnone)],
         priv := [("_x", Value.vint 3)] } : Instance).dict
      = ({ dict := [("x", Value.vint 3), ("w", Value.vnone)],
           priv := [("_x", Value.vint 0)] } : Instance).dict :=
  refresh_failure_aborts_write_atomically clsV instV
    { dict := [("x", Value.vint 3), ("w", Value.vnone)],
      priv := [("_x", Value.vint 0)] }
    "x" (Value.vint 3) fpW _ [("_x", Value.vint 3)] (.valueError "boom")
    rfl rfl rfl rfl rfl rfl

/-! ## Lemmas and theorems for C1 -/

theorem object_getattr_stable (cls : ModelClass) (i j : Instance)
    (n : String) (w : Value)
    (hp : j.priv = i.priv)
    (hg : object_getattr cls i n = .ok w)
    (hd : lookupAssoc j.dict n = some w) :
    object_getattr cls j n = .ok w := by
  have fall : ∀ hres : Option NsEntry,
      (∀ fp, hres ≠ some (NsEntry.prop fp)) →
      resolveClassAttr cls n = hres → object_getattr cls j n = .ok w := by
    intro r hnotp hres
    by_cases hpn : n ∈ cls.privateNames
    · have hg2 : lookupAssoc i.priv n = some w := by
        rcases hl : lookupAssoc i.priv n with _ | u
        · exfalso
          cases r with
          | none => simp [object_getattr, hres, hpn, hl] at hg
          | some e =>
              cases e with
              | prop fp => exact hnotp fp rfl
              | privAttr d df => simp [object_getattr, hres, hpn, hl] at hg
              | plain u2 => simp [object_getattr, hres, hpn, hl] at hg
        · cases r with
          | none => simpa [object_getattr, hres, hpn, hl] using hg
          | some e =>
              cases e with
              | prop fp => exact absurd rfl (hnotp fp)
              | privAttr d df =>
                  simpa [object_getattr, hres, hpn, hl] using hg
              | plain u2 => simpa [object_getattr, hres, hpn, hl] using hg
      cases r with
      | none => simp [object_getattr, hres, hpn, hp, hg2]
      | some e =>
          cases e with
          | prop fp => exact absurd rfl (hnotp fp)
          | privAttr d df => simp [object_getattr, hres, hpn, hp, hg2]
          | plain u2 => simp [object_getattr, hres, hpn, hp, hg2]
    · cases r with
      | none => simp [object_getattr, hres, hpn, hd]
      | some e =>
          cases e with
          | prop fp => exact absurd rfl (hnotp fp)
          | privAttr d df => simp [object_getattr, hres, hpn, hd]
          | plain u2 => simp [object_getattr, hres, hpn, hd]
  cases hres : resolveClassAttr cls n with
  | some e =>
      cases e with
      | prop fp =>
          have hg2 : fp.dunder_get i.priv = .ok w := by
            simpa [object_getattr, hres] using hg
          simp [object_getattr, hres, hp, hg2]
      | privAttr d df => exact fall _ (by intro fp h; cases h) hres
      | plain u2 => exact fall _ (by intro fp h; cases h) hres
  | none => exact fall _ (by intro fp h; cases h) hres

/-- Claim C1 as amended: after a successful write to a name that is a
pydantic field whose class attribute is a `field_property` (so steps 2-3
of the write protocol run), the materialized map holds, for every name in
the registry, exactly the value that field's descriptor read returns on
the resulting instance, and every other key keeps its standard-path
value.  (The original claim — that this holds after ANY attribute write —
fails: a direct private-slot write skips the refresh; see the
counterexample.) -/
theorem setattr_field_property_refresh_invariant
    (cls : ModelClass) (inst : Instance) (name : String) (v : Value)
    (fp : field_property) (instF : Instance)
    (hpriv : name ∉ cls.privateNames)
    (hfield : name ∈ cls.fieldNames)
    (hres : resolveClassAttr cls name = some (NsEntry.prop fp))
    (hok : PropertyModel_setattr cls inst name v = .ok instF) :
    (∀ n ∈ cls.field_properties,
       ∃ w, object_getattr cls instF n = .ok w
            ∧ lookupAssoc instF.dict n = some w)
    ∧ ∀ k, k ∉ cls.field_properties →
        lookupAssoc instF.dict k
          = lookupAssoc (updateAssoc inst.dict name v) k := by
  have hbase : BaseModel_setattr cls inst name v
      = .ok { inst with dict := updateAssoc inst.dict name v } := by
    simp [BaseModel_setattr, hpriv, hfield]
  set inst1 : Instance := { inst with dict := updateAssoc inst.dict name v }
    with hinst1
  have hlook : (lookupAssoc inst1.dict name).isSome = true := by
    simp [hinst1, lookupAssoc_updateAssoc_self]
  rw [PropertyModel_setattr] at hok
  simp only [bind, Except.bind, hbase, hres, hlook, if_true] at hok
  cases hfs : fp.fset with
  | none => simp [field_property.dunder_set, hfs] at hok
  | some f =>
      simp only [field_property.dunder_set, hfs] at hok
      split at hok
      · exact absurd hok (by simp)
      · rename_i priv2 heq
        split at hok
        · exact absurd hok (by simp)
        · rename_i kvs heq2
          have hF := (Except.ok.inj hok).symm
          set inst2 : Instance :=
            { dict := updateAssoc inst.dict name v, priv := priv2 }
            with hinst2
          obtain ⟨hkeys, hvals⟩ :=
            readAllProps_ok_spec cls inst2 cls.field_properties kvs heq2
          constructor
          · intro n hn
            have hmem : ∃ q ∈ kvs, q.1 = n := by
              rw [← hkeys] at hn
              obtain ⟨q, hq, hqn⟩ := List.mem_map.mp hn
              exact ⟨q, hq, hqn⟩
            obtain ⟨q0, hq0, hq0n⟩ := hmem
            have hg : object_getattr cls inst2 n = .ok q0.2 := by
              rw [← hq0n]; exact hvals q0 hq0
            have hcons : ∀ q ∈ kvs, q.1 = n → q.2 = q0.2 := by
              intro q hq hqn
              have h1 := hvals q hq
              rw [hqn, hg] at h1
              exact (Except.ok.inj h1).symm
            have hl : lookupAssoc instF.dict n = some q0.2 := by
              rw [hF]
              exact updateAll_lookup_mem kvs inst2.dict n q0.2 hcons
                ⟨q0, hq0, hq0n⟩
            refine ⟨q0.2, ?_, hl⟩
            exact object_getattr_stable cls inst2 instF n q0.2
              (by rw [hF]) hg hl
          · intro k hk
            have hnone : ∀ q ∈ kvs, q.1 ≠ k := by
              intro q hq hqk
              exact hk (by rw [← hkeys]; exact hqk ▸ List.mem_map_of_mem Prod.fst hq)
            rw [hF]
            exact updateAll_lookup_not_mem kvs inst2.dict k hnone

/-- Counterexample to claim C1 as stated: on `clsA`, the attribute write
`instA._x = 5` completes successfully, yet afterwards the materialized
map still holds `x = 0` while the descriptor read of `x` returns `5` —
the refresh only runs for writes to registered field-property names, so
the invariant fails after this (private-slot) attribute write. -/
theorem private_write_leaves_stale_map :
    (PropertyModel_setattr clsA instA "_x" (Value.vint 5)).map
        (fun i => (lookupAssoc i.dict "x", object_getattr clsA i "x"))
      = .ok (some (Value.vint 0), .ok (Value.vint 5))
    ∧ Value.vint 0 ≠ Value.vint 5 :=
  ⟨rfl, by simp⟩

/-- Witness for C1's amended theorem: writing `x = 7` on `clsW` yields an
instance whose map entry for `x` equals the descriptor read `7`, with all
hypotheses discharged concretely. -/
theorem setattr_field_property_refresh_invariant_witness :
    ("x" ∉ clsW.privateNames)
    ∧ ("x" ∈ clsW.fieldNames)
    ∧ resolveClassAttr clsW "x" = some (NsEntry.prop fpW)
    ∧ PropertyModel_setattr clsW instW "x" (Value.vint 7) = .ok instWF
    ∧ ((∀ n ∈ clsW.field_properties,
          ∃ w, object_getattr clsW instWF n = .ok w
               ∧ lookupAssoc instWF.dict n = some w)
       ∧ ∀ k, k ∉ clsW.field_properties →
           lookupAssoc instWF.dict k
             = lookupAssoc (updateAssoc instW.dict "x" (Value.vint 7)) k) :=
  ⟨by decide, by decide, rfl, rfl,
   setattr_field_property_refresh_invariant clsW instW "x" (Value.vint 7)
     fpW instWF (by decide) (by decide) rfl rfl⟩

end PydanticProperty
